import Mathlib

/-!
Verification of the reliability core of the Kenya FHIR bridge:
the SQLite-backed offline transmission queue (src/offline_queue.rs) and
the Client Registry identity resolver (src/cr_lookup.rs).

Modelling conventions:
* Timestamps are integer seconds.  The source stores RFC3339 UTC strings
  produced by chrono and compares them as SQLite TEXT; for such strings
  lexicographic order agrees with chronological order, so the SQL
  comparisons on created_at are modelled as integer comparisons, and
  chrono Duration days 7 becomes the constant sevenDays.
* The pending_bundles table is a list of rows in rowid order together
  with the next AUTOINCREMENT id.  SQL UPDATE statements become maps
  over the list; the SELECT with ORDER BY becomes a filter followed by a
  sort on created_at.
* The status column is TEXT in the schema and is modelled as a String,
  so that the invariant that every stored status is one of the three
  literals written by the code is a real statement, not a typing fact.
-/

namespace FhirBridge

/-- Seconds in the seven day transmission window (chrono Duration days 7). -/
def sevenDays : Int := 7 * 86400

/-- A row of the pending_bundles table (schema in OfflineQueue.open). -/
structure Row where
  id : Nat
  bundle_id : String
  bundle_json : String
  patient_id : String
  clinic_id : String
  created_at : Int
  retry_count : Nat
  last_error : Option String
  status : String
deriving DecidableEq, Repr

/-- The queue database: the pending_bundles table in rowid order, plus the
next AUTOINCREMENT rowid. -/
structure QueueState where
  rows : List Row
  nextId : Nat
deriving DecidableEq, Repr

/-- OfflineQueue.open on a fresh path: empty table, first rowid is 1. -/
def openQueue : QueueState := { rows := [], nextId := 1 }

/-- The row INSERTed by enqueue: status pending, default retry_count 0,
NULL last_error, created_at = now, AUTOINCREMENT id. -/
def newRow (s : QueueState) (bundle_id bundle_json patient_id clinic_id : String)
    (now : Int) : Row :=
  { id := s.nextId, bundle_id := bundle_id, bundle_json := bundle_json,
    patient_id := patient_id, clinic_id := clinic_id, created_at := now,
    retry_count := 0, last_error := none, status := "pending" }

/-- OfflineQueue.enqueue: INSERT a new row with status pending, default
retry_count 0 and NULL last_error, created_at = now; returns
last_insert_rowid. -/
def enqueue (s : QueueState) (bundle_id bundle_json patient_id clinic_id : String)
    (now : Int) : QueueState × Nat :=
  ({ rows := s.rows ++ [newRow s bundle_id bundle_json patient_id clinic_id now],
     nextId := s.nextId + 1 }, s.nextId)

/-- The projection SELECTed by pending_within_window (every column except
status, with id surfaced as row_id). -/
structure PendingBundle where
  row_id : Nat
  bundle_id : String
  bundle_json : String
  patient_id : String
  clinic_id : String
  created_at : Int
  retry_count : Nat
  last_error : Option String
deriving DecidableEq, Repr

/-- Project a table row to the SELECTed columns. -/
def toPending (r : Row) : PendingBundle :=
  { row_id := r.id, bundle_id := r.bundle_id, bundle_json := r.bundle_json,
    patient_id := r.patient_id, clinic_id := r.clinic_id,
    created_at := r.created_at, retry_count := r.retry_count,
    last_error := r.last_error }

/-- The WHERE clause of pending_within_window:
status = pending AND created_at >= now - 7 days. -/
def inWindow (now : Int) (r : Row) : Bool :=
  r.status == "pending" && decide (now - sevenDays ≤ r.created_at)

/-- The ORDER BY created_at ASC comparison. -/
def byCreated (a b : Row) : Prop := a.created_at ≤ b.created_at

instance : DecidableRel byCreated := fun a b => Int.decLe a.created_at b.created_at

instance : IsTotal Row byCreated := ⟨fun a b => Int.le_total a.created_at b.created_at⟩

instance : IsTrans Row byCreated := ⟨fun _ _ _ h h' => le_trans h h'⟩

/-- OfflineQueue.pending_within_window: SELECT the in-window pending rows
ORDER BY created_at ASC. -/
def pending_within_window (s : QueueState) (now : Int) : List PendingBundle :=
  ((s.rows.filter (inWindow now)).insertionSort byCreated).map toPending

/-- OfflineQueue.mark_sent: UPDATE pending_bundles SET status = sent
WHERE id = row_id.  Unconditional on the current status; updating no rows
is still success. -/
def mark_sent (s : QueueState) (row_id : Nat) : QueueState :=
  { s with rows := s.rows.map (fun r =>
      if r.id = row_id then { r with status := "sent" } else r) }

/-- OfflineQueue.record_failure: UPDATE incrementing retry_count, setting
last_error, and setting status by CASE WHEN retry_count + 1 >= 10 (the old
retry_count, as SQL UPDATE right-hand sides read the old row) THEN failed
ELSE pending, WHERE id = row_id. -/
def record_failure (s : QueueState) (row_id : Nat) (error : String) : QueueState :=
  { s with rows := s.rows.map (fun r =>
      if r.id = row_id then
        { r with retry_count := r.retry_count + 1,
                 last_error := some error,
                 status := if 10 ≤ r.retry_count + 1 then "failed" else "pending" }
      else r) }

/-- The last_error text written by expire_old_bundles. -/
def expiredText : String := "Transmission window (7 days) expired"

/-- The WHERE clause of expire_old_bundles:
status = pending AND created_at < now - 7 days. -/
def isExpired (now : Int) (r : Row) : Bool :=
  r.status == "pending" && decide (r.created_at < now - sevenDays)

/-- OfflineQueue.expire_old_bundles: UPDATE the stale pending rows to
failed with the fixed last_error text, returning the number of rows the
UPDATE matched (rusqlite execute returns the changed-row count). -/
def expire_old_bundles (s : QueueState) (now : Int) : QueueState × Nat :=
  ({ s with rows := s.rows.map (fun r =>
      if isExpired now r then
        { r with status := "failed", last_error := some expiredText }
      else r) },
   (s.rows.filter (isExpired now)).length)

/-- The result type of OfflineQueue.stats. -/
structure QueueStats where
  pending : Nat
  sent : Nat
  failed : Nat
deriving DecidableEq, Repr

/-- OfflineQueue.stats: COUNT of rows with each of the three statuses. -/
def stats (s : QueueState) : QueueStats :=
  { pending := (s.rows.filter (fun r => r.status == "pending")).length,
    sent := (s.rows.filter (fun r => r.status == "sent")).length,
    failed := (s.rows.filter (fun r => r.status == "failed")).length }

/-- The queue states reachable through the public operations of
OfflineQueue starting from a freshly created database. -/
inductive Reachable : QueueState → Prop where
  | openQ : Reachable openQueue
  | enq (s b j p c t) : Reachable s → Reachable (enqueue s b j p c t).1
  | sent (s i) : Reachable s → Reachable (mark_sent s i)
  | fail (s i e) : Reachable s → Reachable (record_failure s i e)
  | expire (s t) : Reachable s → Reachable (expire_old_bundles s t).1

/-!
Identity resolver (src/cr_lookup.rs).  The synthetic fallback identifier is
CR-SYNTH- followed by the first 18 hex characters of the UUID v5 of the
seed string "cr:" ++ national_id under the fixed namespace constant; UUID
v5 is SHA-1 based, so SHA-1 is embedded in full over byte lists (bytes and
32-bit words are Nat with explicit masking by 2 ^ 32).
-/

/-- UTF-8 encoding of one character (the byte representation Rust hands to
the UUID v5 hash via as_bytes). -/
def utf8EncodeChar (c : Char) : List Nat :=
  let n := c.toNat
  if n < 128 then [n]
  else if n < 2048 then [192 ||| (n >>> 6), 128 ||| (n &&& 63)]
  else if n < 65536 then
    [224 ||| (n >>> 12), 128 ||| ((n >>> 6) &&& 63), 128 ||| (n &&& 63)]
  else
    [240 ||| (n >>> 18), 128 ||| ((n >>> 12) &&& 63),
     128 ||| ((n >>> 6) &&& 63), 128 ||| (n &&& 63)]

/-- UTF-8 encoding of a string as a byte list. -/
def utf8Encode (s : String) : List Nat :=
  s.data.foldr (fun c acc => utf8EncodeChar c ++ acc) []

/-- Left rotation of a 32-bit word. -/
def rotl (n x : Nat) : Nat := ((x <<< n) ||| (x >>> (32 - n))) % 4294967296

/-- Big-endian byte serialisation of x into n bytes. -/
def beBytes (n x : Nat) : List Nat :=
  (List.range n).map (fun i => (x >>> (8 * (n - 1 - i))) % 256)

/-- SHA-1 message padding: append 0x80, zero bytes to 56 mod 64, then the
bit length as 8 big-endian bytes. -/
def sha1pad (msg : List Nat) : List Nat :=
  msg ++ [128] ++ List.replicate ((119 - msg.length % 64) % 64) 0
      ++ beBytes 8 (msg.length * 8)

/-- Split a byte list into 64-byte chunks (fuel-driven for structural
recursion; the fuel is always sufficient since each step drops 64 bytes). -/
def chunksGo : Nat → List Nat → List (List Nat)
  | 0, _ => []
  | f + 1, l => if l.isEmpty then [] else l.take 64 :: chunksGo f (l.drop 64)

/-- Split a byte list into 64-byte chunks. -/
def chunks64 (l : List Nat) : List (List Nat) := chunksGo l.length l

/-- The i-th big-endian 32-bit word of a chunk. -/
def word32 (b : List Nat) (i : Nat) : Nat :=
  (b.getD (4 * i) 0) <<< 24 ||| (b.getD (4 * i + 1) 0) <<< 16 |||
  (b.getD (4 * i + 2) 0) <<< 8 ||| b.getD (4 * i + 3) 0

/-- The 80-word SHA-1 message schedule of one chunk. -/
def sha1Schedule (chunk : List Nat) : List Nat :=
  (List.range 64).foldl
    (fun w i => w ++ [rotl 1
        (w.getD (i + 13) 0 ^^^ w.getD (i + 8) 0 ^^^ w.getD (i + 2) 0 ^^^ w.getD i 0)])
    ((List.range 16).map (word32 chunk))

/-- The SHA-1 round function. -/
def sha1f (t b c d : Nat) : Nat :=
  if t < 20 then (b &&& c) ||| ((b ^^^ 4294967295) &&& d)
  else if t < 40 then b ^^^ c ^^^ d
  else if t < 60 then (b &&& c) ||| (b &&& d) ||| (c &&& d)
  else b ^^^ c ^^^ d

/-- The SHA-1 round constants. -/
def sha1k (t : Nat) : Nat :=
  if t < 20 then 1518500249
  else if t < 40 then 1859775393
  else if t < 60 then 2400959708
  else 3395469782

/-- One SHA-1 compression step over a 64-byte chunk. -/
def sha1Compress (h : Nat × Nat × Nat × Nat × Nat) (chunk : List Nat) :
    Nat × Nat × Nat × Nat × Nat :=
  let w := sha1Schedule chunk
  let fin := (List.range 80).foldl
    (fun st t =>
      let temp := (rotl 5 st.1 + sha1f t st.2.1 st.2.2.1 st.2.2.2.1 + st.2.2.2.2
          + sha1k t + w.getD t 0) % 4294967296
      (temp, st.1, rotl 30 st.2.1, st.2.2.1, st.2.2.2.1))
    (h.1, h.2.1, h.2.2.1, h.2.2.2.1, h.2.2.2.2)
  ((h.1 + fin.1) % 4294967296, (h.2.1 + fin.2.1) % 4294967296,
   (h.2.2.1 + fin.2.2.1) % 4294967296, (h.2.2.2.1 + fin.2.2.2.1) % 4294967296,
   (h.2.2.2.2 + fin.2.2.2.2) % 4294967296)

/-- SHA-1 digest (20 bytes) of a byte list. -/
def sha1 (msg : List Nat) : List Nat :=
  let h := (chunks64 (sha1pad msg)).foldl sha1Compress
    (1732584193, 4023233417, 2562383102, 271733878, 3285377520)
  beBytes 4 h.1 ++ beBytes 4 h.2.1 ++ beBytes 4 h.2.2.1
    ++ beBytes 4 h.2.2.2.1 ++ beBytes 4 h.2.2.2.2

/-- UUID version 5 bytes: leading 16 bytes of SHA-1 over namespace ++ name,
with the version nibble set to 5 and the RFC 4122 variant bits set. -/
def uuidV5Bytes (ns nm : List Nat) : List Nat :=
  ((sha1 (ns ++ nm)).take 16).mapIdx (fun i b =>
    if i = 6 then (b &&& 15) ||| 80
    else if i = 8 then (b &&& 63) ||| 128
    else b)

/-- Lower-case hex digit for a nibble. -/
def hexDigit (n : Nat) : Char :=
  if n < 10 then Char.ofNat (48 + n) else Char.ofNat (87 + n)

/-- Lower-case hex rendering of a byte list (the uuid simple format:
32 hex characters, no dashes). -/
def simpleHex (bs : List Nat) : List Char :=
  bs.foldr (fun b acc => hexDigit (b / 16) :: hexDigit (b % 16) :: acc) []

/-- The fixed private namespace constant NS of synthetic_cr_id,
6ba7b810-9dad-11d1-80b4-00c04fd430c9, as bytes. -/
def nsBytes : List Nat :=
  [107, 167, 184, 16, 157, 173, 17, 209, 128, 180, 0, 192, 79, 212, 48, 201]

/-- synthetic_cr_id: CR-SYNTH- followed by the first 18 hex characters of
the UUID v5 of the seed "cr:" ++ national_id under the namespace NS. -/
def synthetic_cr_id (national_id : String) : String :=
  "CR-SYNTH-" ++ String.mk
    ((simpleHex (uuidV5Bytes nsBytes (utf8Encode ("cr:" ++ national_id)))).take 18)

/-- Client Registry lookup result (cr_id plus live provenance flag). -/
structure CrLookupResult where
  cr_id : String
  live : Bool
deriving DecidableEq, Repr

/-- resolve_cr_id, with the outcome of try_live_cr_lookup (an effectful
best-effort HTTP call) supplied as a parameter: some id when the live
lookup succeeded, none when it was disabled or failed in any way. -/
def resolve_cr_id (liveResult : Option String) (national_id : String) :
    CrLookupResult :=
  match liveResult with
  | some cr_id => { cr_id := cr_id, live := true }
  | none => { cr_id := synthetic_cr_id national_id, live := false }

/-- Rust str starts_with: the pattern is a prefix of the string. -/
def strStartsWith (pat s : String) : Bool := pat.data.isPrefixOf s.data

/-- A parsed JSON value, as produced by serde_json from a response body
(numbers are irrelevant to the extraction path and carried as Int). -/
inductive Json where
  | null : Json
  | bool : Bool → Json
  | num : Int → Json
  | str : String → Json
  | arr : List Json → Json
  | obj : List (String × Json) → Json

/-- serde_json Value get with a string key: field of an object. -/
def Json.getField : Json → String → Option Json
  | .obj fields, key => fields.lookup key
  | _, _ => none

/-- serde_json Value as_array. -/
def Json.asArray : Json → Option (List Json)
  | .arr xs => some xs
  | _ => none

/-- serde_json Value as_str. -/
def Json.asString : Json → Option String
  | .str s => some s
  | _ => none

/-- The raw id field read by extract_cr_id_from_response:
entry, first element, resource, id, as a string. -/
def rawPatientId (v : Json) : Option String :=
  (v.getField "entry").bind fun e =>
  e.asArray.bind fun xs =>
  xs.head?.bind fun entry =>
  (entry.getField "resource").bind fun resource =>
  (resource.getField "id").bind fun idv =>
  idv.asString

/-- extract_cr_id_from_response on a parsed body: the raw id unchanged when
it already starts with CR-, otherwise wrapped in the CR- tag. -/
def extract_cr_id_from_response (v : Json) : Option String :=
  (rawPatientId v).map fun id =>
    if strStartsWith "CR-" id then id else "CR-" ++ id

example :
    (record_failure (enqueue openQueue "b1" "{}" "p1" "c1" 0).1 1 "timeout").rows.map
      (fun r => (r.retry_count, r.last_error, r.status)) =
    [(1, some "timeout", "pending")] := by decide

example : (stats (mark_sent (enqueue openQueue "b1" "{}" "p1" "c1" 0).1 1)).sent = 1 := by
  decide

example :
    (pending_within_window (enqueue openQueue "b1" "{}" "p1" "c1" 700000).1 700000).map
      PendingBundle.row_id = [1] := by decide

set_option maxRecDepth 100000 in
example : sha1 (utf8Encode "abc") =
    [0xa9, 0x99, 0x3e, 0x36, 0x47, 0x06, 0x81, 0x6a, 0xba, 0x3e,
     0x25, 0x71, 0x78, 0x50, 0xc2, 0x6c, 0x9c, 0xd0, 0xd8, 0x9d] := by decide

set_option maxRecDepth 100000 in
example : synthetic_cr_id "27845612" = "CR-SYNTH-08e9f5a035cd5e81b9" := by decide

/-- A response body whose first entry carries a synthetic-format id. -/
def synthResponse : Json :=
  .obj [("entry", .arr [.obj [("resource",
    .obj [("id", .str "CR-SYNTH-0123456789abcdef01")])]])]

/-- A response body whose first entry carries a live-format id. -/
def liveResponse : Json :=
  .obj [("entry", .arr [.obj [("resource", .obj [("id", .str "CR-12345")])]])]

/-- A concrete table row used to instantiate theorems with hypotheses. -/
def row1 (st : String) (retry : Nat) (created : Int) : Row :=
  { id := 1, bundle_id := "b1", bundle_json := "{}", patient_id := "p1",
    clinic_id := "c1", created_at := created, retry_count := retry,
    last_error := none, status := st }

/-- A one-row store used to instantiate theorems with hypotheses. -/
def oneRowState (st : String) (retry : Nat) (created : Int) : QueueState :=
  { rows := [row1 st retry created], nextId := 2 }

/-- The columns that must never change after enqueue. -/
def frozenCols (r : Row) : Nat × String × String × String × String × Int :=
  (r.id, r.bundle_id, r.bundle_json, r.patient_id, r.clinic_id, r.created_at)

/-! Theorems. -/

theorem isPrefixOf_append_self (p l : List Char) : p.isPrefixOf (p ++ l) = true := by
  induction p with
  | nil => simp
  | cons a as ih => simp [ih]

theorem append_isPrefixOf_append (p a b : List Char) :
    (p ++ a).isPrefixOf (p ++ b) = a.isPrefixOf b := by
  induction p with
  | nil => simp
  | cons x xs ih => simp [ih]

theorem inWindow_iff (now : Int) (r : Row) :
    inWindow now r = true ↔ (r.status = "pending" ∧ now - sevenDays ≤ r.created_at) := by
  simp [inWindow]

theorem isExpired_iff (now : Int) (r : Row) :
    isExpired now r = true ↔ (r.status = "pending" ∧ r.created_at < now - sevenDays) := by
  simp [isExpired]

/-- C6: resolve_cr_id is total by construction and, whenever the live path
is disabled or fails (try_live_cr_lookup yields none), the result has live
provenance false and its identifier is exactly the deterministic synthetic
derivation from the national id, so repeated calls under a disabled live
path agree; a successful live lookup is marked live. -/
theorem resolve_cr_id_total_and_fallback (national_id : String) :
    (resolve_cr_id none national_id).live = false ∧
    (resolve_cr_id none national_id).cr_id = synthetic_cr_id national_id ∧
    ∀ liveId : String, (resolve_cr_id (some liveId) national_id).live = true :=
  ⟨rfl, rfl, fun _ => rfl⟩

/-- C5 counterexample: a response whose first entry resource id is itself in
synthetic format is passed through verbatim by the extraction path, so the
extracted identifier begins with CR-SYNTH-, contradicting the claim that no
identifier produced by the live-lookup extraction begins with CR-SYNTH-. -/
theorem extract_synthetic_collision :
    extract_cr_id_from_response synthResponse = some "CR-SYNTH-0123456789abcdef01" ∧
    strStartsWith "CR-SYNTH-" "CR-SYNTH-0123456789abcdef01" = true := by
  constructor
  · decide
  · decide

/-- C5 (amended): every synthetic fallback identifier begins with the
marker CR-SYNTH-; and the extraction path output begins with CR-SYNTH-
only when the raw resource id itself carries the synthetic marker — for
every response whose raw id neither starts with CR-SYNTH- nor with
SYNTH-, the extracted identifier does not begin with CR-SYNTH-. -/
theorem synthetic_marker_separation (national_id : String) :
    strStartsWith "CR-SYNTH-" (synthetic_cr_id national_id) = true ∧
    ∀ (v : Json) (id r : String), rawPatientId v = some id →
      strStartsWith "CR-SYNTH-" id = false →
      strStartsWith "SYNTH-" id = false →
      extract_cr_id_from_response v = some r →
      strStartsWith "CR-SYNTH-" r = false := by
  constructor
  · show ("CR-SYNTH-" : String).data.isPrefixOf
      (("CR-SYNTH-" : String) ++ String.mk
        ((simpleHex (uuidV5Bytes nsBytes (utf8Encode ("cr:" ++ national_id)))).take 18)).data = true
    rw [String.data_append]
    exact isPrefixOf_append_self _ _
  · intro v id r h1 h2 h3 h4
    rw [extract_cr_id_from_response, h1, Option.map_some'] at h4
    by_cases hcr : strStartsWith "CR-" id = true
    · rw [if_pos hcr] at h4
      cases h4
      exact h2
    · rw [if_neg hcr] at h4
      cases h4
      show ("CR-SYNTH-" : String).data.isPrefixOf (("CR-" : String) ++ id).data = false
      have hsplit : ("CR-SYNTH-" : String).data
          = ("CR-" : String).data ++ ("SYNTH-" : String).data := by decide
      rw [String.data_append, hsplit, append_isPrefixOf_append]
      exact h3

/-- Witness for the amended C5 theorem at the sampled national id and at a
live-format response. -/
theorem synthetic_marker_separation_witness :
    strStartsWith "CR-SYNTH-" (synthetic_cr_id "27845612") = true ∧
    strStartsWith "CR-SYNTH-" "CR-12345" = false :=
  ⟨(synthetic_marker_separation "27845612").1,
   (synthetic_marker_separation "27845612").2 liveResponse "CR-12345" "CR-12345"
     (by decide) (by decide) (by decide) (by decide)⟩

/-- C1 counterexample: record_failure on a row whose status is sent (and
whose retry_count is below the ceiling) changes the status — it resets it to
pending — because the UPDATE is guarded only by the row id, never by the
current status.  So sent is not terminal and a row does return to pending. -/
theorem record_failure_reverts_sent_row :
    (oneRowState "sent" 0 0).rows.map Row.status = ["sent"] ∧
    (record_failure (oneRowState "sent" 0 0) 1 "timeout").rows.map Row.status
      = ["pending"] := by decide

/-- C1 (amended): mark_sent always yields status sent on the addressed row
(so a second mark_sent leaves a sent row sent), and record_failure yields
status failed on any addressed row whose retry_count is at least 9 (so a
row failed through retry exhaustion stays failed); but the statuses sent
and failed are not terminal in general: record_failure on an addressed row
with retry_count below 9 sets the status to pending whatever the current
status was. -/
theorem terminal_statuses_amended (s : QueueState) (i : Nat) (e : String)
    (k : Nat) (r : Row) (hk : s.rows[k]? = some r) (hid : r.id = i) :
    ((mark_sent s i).rows[k]?.map Row.status = some "sent") ∧
    (9 ≤ r.retry_count →
      (record_failure s i e).rows[k]?.map Row.status = some "failed") ∧
    (r.retry_count < 9 →
      (record_failure s i e).rows[k]?.map Row.status = some "pending") := by
  refine ⟨?_, ?_, ?_⟩
  · simp [mark_sent, hk, hid]
  · intro h9
    simp [record_failure, hk, hid]
    omega
  · intro h9
    simp [record_failure, hk, hid]
    omega

/-- Witness for the amended C1 theorem: a sent row addressed by mark_sent
stays sent, and a row at the retry ceiling addressed by record_failure
stays failed. -/
theorem terminal_statuses_amended_witness :
    ((mark_sent (oneRowState "sent" 0 0) 1).rows[0]?.map Row.status = some "sent") ∧
    ((record_failure (oneRowState "failed" 10 0) 1 "e").rows[0]?.map Row.status
      = some "failed") :=
  ⟨(terminal_statuses_amended (oneRowState "sent" 0 0) 1 "e" 0 (row1 "sent" 0 0)
      (by decide) (by decide)).1,
   (terminal_statuses_amended (oneRowState "failed" 10 0) 1 "e" 0 (row1 "failed" 10 0)
      (by decide) (by decide)).2.1 (by decide)⟩

/-- C2: record_failure on an existing addressed row increments retry_count
by exactly one and sets last_error to the message; the resulting status is
failed exactly when the new retry_count is at least 10, and is pending
otherwise — so a row at retry_count 9 ends failed at retry_count 10, while
a row below retry_count 9 stays pending. -/
theorem record_failure_spec (s : QueueState) (i : Nat) (e : String)
    (k : Nat) (r : Row) (hk : s.rows[k]? = some r) (hid : r.id = i) :
    ∃ r', (record_failure s i e).rows[k]? = some r' ∧
      r'.retry_count = r.retry_count + 1 ∧
      r'.last_error = some e ∧
      (r'.status = "failed" ↔ 10 ≤ r.retry_count + 1) ∧
      (r.retry_count + 1 < 10 → r'.status = "pending") := by
  have hupd : (record_failure s i e).rows[k]? = some
      { r with retry_count := r.retry_count + 1, last_error := some e,
               status := if 10 ≤ r.retry_count + 1 then "failed" else "pending" } := by
    simp [record_failure, hk, hid]
  refine ⟨_, hupd, rfl, rfl, ?_, ?_⟩
  · show (if 10 ≤ r.retry_count + 1 then "failed" else "pending") = "failed"
      ↔ 10 ≤ r.retry_count + 1
    by_cases h10 : 10 ≤ r.retry_count + 1
    · simp [h10]
    · simp only [if_neg h10]
      constructor
      · intro hpf
        exact absurd hpf (by decide)
      · intro h
        exact absurd h h10
  · intro hlt
    show (if 10 ≤ r.retry_count + 1 then "failed" else "pending") = "pending"
    rw [if_neg (by omega : ¬ 10 ≤ r.retry_count + 1)]

/-- Witness for the C2 theorem: the ninth retry escalation on a pending
row at retry_count 9. -/
theorem record_failure_spec_witness :
    ∃ r', (record_failure (oneRowState "pending" 9 0) 1 "timeout").rows[0]? = some r' ∧
      r'.retry_count = (row1 "pending" 9 0).retry_count + 1 ∧
      r'.last_error = some "timeout" ∧
      (r'.status = "failed" ↔ 10 ≤ (row1 "pending" 9 0).retry_count + 1) ∧
      ((row1 "pending" 9 0).retry_count + 1 < 10 → r'.status = "pending") :=
  record_failure_spec (oneRowState "pending" 9 0) 1 "timeout" 0 (row1 "pending" 9 0)
    (by decide) (by decide)

/-- C3 counterexample: the row transitioned by expire_old_bundles carries
the last_error text written by the code, which is not the fixed text quoted
by the claim. -/
theorem expire_text_counterexample :
    (expire_old_bundles (oneRowState "pending" 0 0) 700000).1.rows.map Row.status
      = ["failed"] ∧
    (expire_old_bundles (oneRowState "pending" 0 0) 700000).1.rows.map Row.last_error
      = [some "Transmission window (7 days) expired"] ∧
    ¬ (expire_old_bundles (oneRowState "pending" 0 0) 700000).1.rows.map Row.last_error
      = [some "transmission window expired"] := by decide

/-- C3 (amended): expire_old_bundles transitions exactly the rows that are
pending and older than seven days to failed, writes the fixed last_error
text "Transmission window (7 days) expired" (the claim quoted the text as
"transmission window expired"), leaves every other row unchanged, and
returns the number of rows affected. -/
theorem expire_old_bundles_spec (s : QueueState) (now : Int) :
    (expire_old_bundles s now).1.rows.length = s.rows.length ∧
    (∀ (k : Nat) (r : Row), s.rows[k]? = some r →
      (expire_old_bundles s now).1.rows[k]? =
        some (if r.status = "pending" ∧ r.created_at < now - sevenDays then
          { r with status := "failed", last_error := some expiredText }
        else r)) ∧
    (expire_old_bundles s now).2 =
      s.rows.countP (fun r => decide (r.status = "pending" ∧ r.created_at < now - sevenDays)) ∧
    (expire_old_bundles s now).1.nextId = s.nextId := by
  refine ⟨by simp [expire_old_bundles], ?_, ?_, rfl⟩
  · intro k r hk
    simp only [expire_old_bundles, List.getElem?_map, hk, Option.map_some']
    by_cases h : r.status = "pending" ∧ r.created_at < now - sevenDays
    · rw [if_pos ((isExpired_iff now r).2 h), if_pos h]
    · rw [if_neg (fun hc => h ((isExpired_iff now r).1 hc)), if_neg h]
  · show (s.rows.filter (isExpired now)).length = _
    rw [List.countP_eq_length_filter]
    congr 1
    apply List.filter_congr
    intro r _
    by_cases h : r.status = "pending" ∧ r.created_at < now - sevenDays
    · rw [(isExpired_iff now r).2 h, decide_eq_true h]
    · rw [decide_eq_false h]
      cases hb : isExpired now r
      · rfl
      · exact absurd ((isExpired_iff now r).1 hb) h

/-- Witness for the amended C3 theorem: a pending row eight days old is
transitioned to failed with the fixed text and counted. -/
theorem expire_old_bundles_spec_witness :
    (expire_old_bundles (oneRowState "pending" 0 0) 700000).1.rows.length = 1 ∧
    (expire_old_bundles (oneRowState "pending" 0 0) 700000).1.rows[0]? =
      some { row1 "pending" 0 0 with status := "failed", last_error := some expiredText } ∧
    (expire_old_bundles (oneRowState "pending" 0 0) 700000).2 = 1 :=
  ⟨((expire_old_bundles_spec (oneRowState "pending" 0 0) 700000).1).trans (by decide),
   by
     have h := (expire_old_bundles_spec (oneRowState "pending" 0 0) 700000).2.1 0
       (row1 "pending" 0 0) (by decide)
     rwa [if_pos (by decide)] at h,
   ((expire_old_bundles_spec (oneRowState "pending" 0 0) 700000).2.2.1).trans (by decide)⟩

/-- C7: mark_sent sets the status of every row with the addressed id to
sent and touches nothing else; it is idempotent; and when no stored row has
the addressed id it is a no-op that still returns success. -/
theorem mark_sent_spec (s : QueueState) (i : Nat) :
    (∀ (k : Nat) (r : Row), s.rows[k]? = some r →
      (mark_sent s i).rows[k]? =
        some (if r.id = i then { r with status := "sent" } else r)) ∧
    mark_sent (mark_sent s i) i = mark_sent s i ∧
    ((∀ r ∈ s.rows, r.id ≠ i) → mark_sent s i = s) := by
  refine ⟨?_, ?_, ?_⟩
  · intro k r hk
    simp [mark_sent, hk]
  · have hf : ((s.rows.map fun r => if r.id = i then { r with status := "sent" } else r).map
        fun r => if r.id = i then { r with status := "sent" } else r)
        = s.rows.map fun r => if r.id = i then { r with status := "sent" } else r := by
      rw [List.map_map]
      apply List.map_congr_left
      intro r _
      by_cases h : r.id = i
      · simp [Function.comp, h]
      · simp [Function.comp, h]
    exact congrArg (fun l => QueueState.mk l s.nextId) hf
  · intro h
    have hrows : s.rows.map
        (fun r => if r.id = i then { r with status := "sent" } else r) = s.rows := by
      conv_rhs => rw [← List.map_id s.rows]
      apply List.map_congr_left
      intro r hr
      simp [h r hr]
    show ({ s with rows := _ } : QueueState) = s
    rw [hrows]

/-- Witness for the C7 theorem: the addressed row ends sent, a repeated
mark_sent changes nothing, and mark_sent addressed at an absent id leaves
the store untouched. -/
theorem mark_sent_spec_witness :
    (mark_sent (oneRowState "pending" 0 0) 1).rows[0]? = some (row1 "sent" 0 0) ∧
    mark_sent (mark_sent (oneRowState "pending" 0 0) 1) 1
      = mark_sent (oneRowState "pending" 0 0) 1 ∧
    mark_sent (oneRowState "pending" 0 0) 2 = oneRowState "pending" 0 0 :=
  ⟨by
    have h := (mark_sent_spec (oneRowState "pending" 0 0) 1).1 0 (row1 "pending" 0 0)
      (by decide)
    rwa [if_pos (by decide)] at h,
   (mark_sent_spec (oneRowState "pending" 0 0) 1).2.1,
   (mark_sent_spec (oneRowState "pending" 0 0) 2).2.2 (by decide)⟩

theorem mem_pww (s : QueueState) (now : Int) (b : PendingBundle) :
    b ∈ pending_within_window s now ↔
      ∃ r : Row, r ∈ s.rows ∧ r.status = "pending" ∧ now - sevenDays ≤ r.created_at
        ∧ b = toPending r := by
  constructor
  · intro hb
    rcases List.mem_map.1 hb with ⟨r, hr, rfl⟩
    rw [List.mem_insertionSort] at hr
    rcases List.mem_filter.1 hr with ⟨hmem, hw⟩
    rcases (inWindow_iff now r).1 hw with ⟨hst, hcr⟩
    exact ⟨r, hmem, hst, hcr, rfl⟩
  · rintro ⟨r, hmem, hst, hcr, rfl⟩
    exact List.mem_map.2 ⟨r, (List.mem_insertionSort byCreated).2
      (List.mem_filter.2 ⟨hmem, (inWindow_iff now r).2 ⟨hst, hcr⟩⟩), rfl⟩

/-- C4: pending_within_window returns exactly the projections of the rows
with status pending and created_at at or after now minus seven days —
pending rows outside the window are excluded — and the returned list is
ordered by created_at ascending. -/
theorem pending_within_window_spec (s : QueueState) (now : Int) :
    (∀ b : PendingBundle, b ∈ pending_within_window s now ↔
      ∃ r : Row, r ∈ s.rows ∧ r.status = "pending" ∧ now - sevenDays ≤ r.created_at
        ∧ b = toPending r) ∧
    (pending_within_window s now).Perm ((s.rows.filter (inWindow now)).map toPending) ∧
    (pending_within_window s now).Pairwise (fun a b => a.created_at ≤ b.created_at) := by
  refine ⟨mem_pww s now, (List.perm_insertionSort byCreated _).map toPending, ?_⟩
  show (((s.rows.filter (inWindow now)).insertionSort byCreated).map toPending).Pairwise _
  rw [List.pairwise_map]
  exact List.sorted_insertionSort byCreated _

/-- Witness for the C4 theorem: a pending in-window row is returned. -/
theorem pending_within_window_spec_witness :
    toPending (row1 "pending" 0 700000)
      ∈ pending_within_window (oneRowState "pending" 0 700000) 700000 :=
  ((pending_within_window_spec (oneRowState "pending" 0 700000) 700000).1 _).2
    ⟨row1 "pending" 0 700000, by decide, by decide, by decide, rfl⟩

/-- C9: no operation deletes a row — mark_sent, record_failure and
expire_old_bundles preserve the number of rows and enqueue only appends —
the columns id, bundle_id, bundle_json, patient_id, clinic_id and
created_at are never modified by any operation after enqueue, and
mark_sent additionally leaves retry_count and last_error untouched. -/
theorem frame_conditions (s : QueueState) (i : Nat) (e : String) (t : Int)
    (b j p c : String) (k : Nat) :
    ((mark_sent s i).rows.length = s.rows.length ∧
     (record_failure s i e).rows.length = s.rows.length ∧
     (expire_old_bundles s t).1.rows.length = s.rows.length) ∧
    ((mark_sent s i).rows[k]?.map frozenCols = s.rows[k]?.map frozenCols ∧
     (record_failure s i e).rows[k]?.map frozenCols = s.rows[k]?.map frozenCols ∧
     (expire_old_bundles s t).1.rows[k]?.map frozenCols = s.rows[k]?.map frozenCols) ∧
    ((mark_sent s i).rows[k]?.map (fun r => (r.retry_count, r.last_error))
      = s.rows[k]?.map (fun r => (r.retry_count, r.last_error))) ∧
    (enqueue s b j p c t).1.rows.take s.rows.length = s.rows := by
  refine ⟨⟨by simp [mark_sent], by simp [record_failure], by simp [expire_old_bundles]⟩,
    ⟨?_, ?_, ?_⟩, ?_, List.take_left _ _⟩
  all_goals
    simp only [mark_sent, record_failure, expire_old_bundles, List.getElem?_map]
    cases s.rows[k]? with
    | none => rfl
    | some r =>
      simp only [Option.map_some']
      congr 1
      split <;> rfl

/-- C8: queue round trip — from any store satisfying the AUTOINCREMENT
freshness invariant, the row id returned by enqueue appears in
pending_within_window (as a pending row with retry_count 0) at any query
time within the window of the enqueue time; after mark_sent on that row
id the row no longer appears, and stats().sent has grown by exactly one. -/
theorem queue_round_trip (s : QueueState) (b j p c : String) (tq tnow : Int)
    (hfresh : ∀ r ∈ s.rows, r.id < s.nextId)
    (hwin : tnow - sevenDays ≤ tq) :
    (∃ pb ∈ pending_within_window (enqueue s b j p c tq).1 tnow,
        pb.row_id = (enqueue s b j p c tq).2 ∧ pb.retry_count = 0) ∧
    (∀ pb ∈ pending_within_window
        (mark_sent (enqueue s b j p c tq).1 (enqueue s b j p c tq).2) tnow,
        pb.row_id ≠ (enqueue s b j p c tq).2) ∧
    (stats (mark_sent (enqueue s b j p c tq).1 (enqueue s b j p c tq).2)).sent
      = (stats (enqueue s b j p c tq).1).sent + 1 := by
  refine ⟨?_, ?_, ?_⟩
  · refine ⟨toPending (newRow s b j p c tq), ?_, rfl, rfl⟩
    refine (mem_pww _ _ _).2 ⟨newRow s b j p c tq, ?_, rfl, hwin, rfl⟩
    exact List.mem_append_right _ (List.mem_singleton_self _)
  · intro pb hpb
    rcases (mem_pww _ _ _).1 hpb with ⟨r, hrmem, hst, _, rfl⟩
    rcases List.mem_map.1 hrmem with ⟨r0, _, rfl⟩
    by_cases h0 : r0.id = (enqueue s b j p c tq).2
    · rw [if_pos h0] at hst
      have hx : ("sent" : String) = "pending" := hst
      exact absurd hx (by decide)
    · rw [if_neg h0]
      exact h0
  · have hfix : s.rows.map (fun r =>
        if r.id = (enqueue s b j p c tq).2 then { r with status := "sent" } else r)
        = s.rows := by
      conv_rhs => rw [← List.map_id s.rows]
      apply List.map_congr_left
      intro r hr
      rw [if_neg]
      · rfl
      · show ¬ r.id = s.nextId
        have := hfresh r hr
        omega
    have hrows : (mark_sent (enqueue s b j p c tq).1 (enqueue s b j p c tq).2).rows
        = s.rows ++ [{ newRow s b j p c tq with status := "sent" }] := by
      show (s.rows ++ [newRow s b j p c tq]).map _ = _
      rw [List.map_append, hfix, List.map_cons, List.map_nil,
        if_pos (show (newRow s b j p c tq).id = (enqueue s b j p c tq).2 from rfl)]
    have henq : (enqueue s b j p c tq).1.rows = s.rows ++ [newRow s b j p c tq] := rfl
    show ((mark_sent (enqueue s b j p c tq).1 (enqueue s b j p c tq).2).rows.filter
        (fun r => r.status == "sent")).length
      = ((enqueue s b j p c tq).1.rows.filter (fun r => r.status == "sent")).length + 1
    rw [hrows, henq, List.filter_append, List.filter_append,
      List.length_append, List.length_append]
    have h1 : (List.filter (fun r => r.status == "sent")
        [{ newRow s b j p c tq with status := "sent" }]).length = 1 := rfl
    have h2 : (List.filter (fun r => r.status == "sent") [newRow s b j p c tq]).length
        = 0 := rfl
    rw [h1, h2]

/-- Witness for the C8 theorem on an empty freshly opened store. -/
theorem queue_round_trip_witness :
    (∃ pb ∈ pending_within_window (enqueue openQueue "b1" "{}" "p1" "c1" 700000).1 700000,
        pb.row_id = (enqueue openQueue "b1" "{}" "p1" "c1" 700000).2
          ∧ pb.retry_count = 0) ∧
    (∀ pb ∈ pending_within_window
        (mark_sent (enqueue openQueue "b1" "{}" "p1" "c1" 700000).1
          (enqueue openQueue "b1" "{}" "p1" "c1" 700000).2) 700000,
        pb.row_id ≠ (enqueue openQueue "b1" "{}" "p1" "c1" 700000).2) ∧
    (stats (mark_sent (enqueue openQueue "b1" "{}" "p1" "c1" 700000).1
        (enqueue openQueue "b1" "{}" "p1" "c1" 700000).2)).sent
      = (stats (enqueue openQueue "b1" "{}" "p1" "c1" 700000).1).sent + 1 :=
  queue_round_trip openQueue "b1" "{}" "p1" "c1" 700000 700000 (by decide) (by decide)

theorem count_partition (l : List Row)
    (h : ∀ r ∈ l, r.status = "pending" ∨ r.status = "sent" ∨ r.status = "failed") :
    (l.filter (fun r => r.status == "pending")).length
      + (l.filter (fun r => r.status == "sent")).length
      + (l.filter (fun r => r.status == "failed")).length = l.length := by
  induction l with
  | nil => rfl
  | cons r t ih =>
    have ht := ih (fun x hx => h x (List.mem_cons_of_mem r hx))
    rcases h r (List.mem_cons_self r t) with h1 | h1 | h1 <;>
      simp [List.filter_cons, h1] <;> omega

/-- C10: in every store state reachable through open, enqueue, mark_sent,
record_failure and expire_old_bundles, every row status is one of pending,
sent or failed; consequently the three stats counters partition the table,
and their total is the number of rows ever enqueued — the table length,
which always equals the next AUTOINCREMENT id minus one because each
enqueue appends exactly one row and no operation ever deletes one. -/
theorem stats_partition_invariant (s : QueueState) (hs : Reachable s) :
    (∀ r ∈ s.rows, r.status = "pending" ∨ r.status = "sent" ∨ r.status = "failed") ∧
    (stats s).pending + (stats s).sent + (stats s).failed = s.rows.length ∧
    s.nextId = s.rows.length + 1 := by
  have key : (∀ r ∈ s.rows,
      r.status = "pending" ∨ r.status = "sent" ∨ r.status = "failed") ∧
      s.nextId = s.rows.length + 1 := by
    induction hs with
    | openQ => exact ⟨by simp [openQueue], rfl⟩
    | enq s b j p c t hr ih =>
      refine ⟨?_, ?_⟩
      · intro r hrr
        rcases List.mem_append.1 hrr with hin | hin
        · exact ih.1 r hin
        · rw [List.mem_singleton.1 hin]
          left
          rfl
      · show s.nextId + 1 = (s.rows ++ [newRow s b j p c t]).length + 1
        rw [List.length_append, ih.2]
        rfl
    | sent s i hr ih =>
      refine ⟨?_, ?_⟩
      · intro r hrr
        rcases List.mem_map.1 hrr with ⟨r0, h0, rfl⟩
        by_cases hid : r0.id = i
        · rw [if_pos hid]
          right
          left
          rfl
        · rw [if_neg hid]
          exact ih.1 r0 h0
      · show s.nextId = (s.rows.map _).length + 1
        rw [List.length_map]
        exact ih.2
    | fail s i e hr ih =>
      refine ⟨?_, ?_⟩
      · intro r hrr
        rcases List.mem_map.1 hrr with ⟨r0, h0, rfl⟩
        by_cases hid : r0.id = i
        · rw [if_pos hid]
          by_cases h10 : 10 ≤ r0.retry_count + 1
          · rw [if_pos h10]
            right
            right
            rfl
          · rw [if_neg h10]
            left
            rfl
        · rw [if_neg hid]
          exact ih.1 r0 h0
      · show s.nextId = (s.rows.map _).length + 1
        rw [List.length_map]
        exact ih.2
    | expire s t hr ih =>
      refine ⟨?_, ?_⟩
      · intro r hrr
        rcases List.mem_map.1 hrr with ⟨r0, h0, rfl⟩
        by_cases he : isExpired t r0 = true
        · rw [if_pos he]
          right
          right
          rfl
        · rw [if_neg he]
          exact ih.1 r0 h0
      · show s.nextId = (s.rows.map _).length + 1
        rw [List.length_map]
        exact ih.2
  exact ⟨key.1, count_partition s.rows key.1, key.2⟩

/-- Witness for the C10 theorem at a concrete reachable state: one enqueue
followed by mark_sent. -/
theorem stats_partition_invariant_witness :
    (∀ r ∈ (mark_sent (enqueue openQueue "b1" "{}" "p1" "c1" 0).1 1).rows,
      r.status = "pending" ∨ r.status = "sent" ∨ r.status = "failed") ∧
    (stats (mark_sent (enqueue openQueue "b1" "{}" "p1" "c1" 0).1 1)).pending
      + (stats (mark_sent (enqueue openQueue "b1" "{}" "p1" "c1" 0).1 1)).sent
      + (stats (mark_sent (enqueue openQueue "b1" "{}" "p1" "c1" 0).1 1)).failed
      = (mark_sent (enqueue openQueue "b1" "{}" "p1" "c1" 0).1 1).rows.length ∧
    (mark_sent (enqueue openQueue "b1" "{}" "p1" "c1" 0).1 1).nextId
      = (mark_sent (enqueue openQueue "b1" "{}" "p1" "c1" 0).1 1).rows.length + 1 :=
  stats_partition_invariant _
    (Reachable.sent _ 1 (Reachable.enq openQueue "b1" "{}" "p1" "c1" 0 Reachable.openQ))

end FhirBridge
